import Mathlib

/-!
Verification of the LLM Based Tutor notebook (src/llm_based_tutor.ipynb).

The notebook has three pieces with behavioral content, all embedded here:

* the prompt builder (`user_prompt`, `the_prompts` in cell 4);
* the streaming aggregator and renderer duplicated inside `gpt_answer`
  (cell 5) and `llama_answer` (cell 6): the loop appends each streamed
  fragment to a growing `response` buffer, re-applies
  `response.replace("```", "").replace("markdown", "")` to the whole
  buffer, and pushes the buffer to the notebook display;
* the try/except wrapper of each function, which catches every exception
  raised while opening or iterating the stream, prints a diagnostic and
  returns normally.

Text is modelled as `List Char`.  Python `str.replace(old, "")` is a
single left-to-right pass that removes non-overlapping occurrences of
`old` and continues scanning after each removed occurrence; it does not
revisit text formed by a removal.  `removeFence` and `removeMd` embed the
two concrete replace calls of the source with exactly that semantics.
-/

/-- The backtick character (code point 96). -/
def btick : Char := Char.ofNat 96

/-- The apostrophe character (code point 39). -/
def apos : Char := Char.ofNat 39

/-- View of a string literal as the list of its characters. -/
def chars (s : String) : List Char := s.data

/-- Boolean test that `pat` occurs at the very start of `s`. -/
def leadsWith : List Char → List Char → Bool
  | [], _ => true
  | _ :: _, [] => false
  | p :: ps, c :: cs => p == c && leadsWith ps cs

/-- Boolean test that `pat` occurs as a contiguous substring of `s`. -/
def occurs (pat : List Char) : List Char → Bool
  | [] => pat.isEmpty
  | c :: rest => leadsWith pat (c :: rest) || occurs pat rest

/-- The code-fence token removed first in the source loops: three
backticks, the first argument of the first `replace`. -/
def fenceTok : List Char := [btick, btick, btick]

/-- The token removed second in the source loops, the first argument of
the second `replace`. -/
def mdTok : List Char := chars "markdown"

/-- Embedding of `s.replace("```", "")` from cells 5 and 6: one
left-to-right pass; when the three-backtick token starts at the current
position it is dropped and the scan continues after it, otherwise the
head character is kept. -/
def removeFence : List Char → List Char
  | a :: b :: c :: rest =>
    if leadsWith fenceTok (a :: b :: c :: rest) then removeFence rest
    else a :: removeFence (b :: c :: rest)
  | a :: rest => a :: removeFence rest
  | [] => []

/-- Embedding of `s.replace("markdown", "")` from cells 5 and 6, with the
same single-pass semantics as `removeFence`. -/
def removeMd : List Char → List Char
  | c1 :: c2 :: c3 :: c4 :: c5 :: c6 :: c7 :: c8 :: rest =>
    if leadsWith mdTok (c1 :: c2 :: c3 :: c4 :: c5 :: c6 :: c7 :: c8 :: rest) then removeMd rest
    else c1 :: removeMd (c2 :: c3 :: c4 :: c5 :: c6 :: c7 :: c8 :: rest)
  | c :: rest => c :: removeMd rest
  | [] => []

/-- The sanitize step of the source loops:
`response.replace("```", "").replace("markdown", "")`. -/
def sanitize (s : List Char) : List Char := removeMd (removeFence s)

/-- One iteration of the aggregation loop body on the response buffer:
append the fragment, then sanitize the whole buffer. -/
def stepResp (response fragment : List Char) : List Char :=
  sanitize (response ++ fragment)

/-- Concatenation of a fragment sequence. -/
def joinAll : List (List Char) → List Char
  | [] => []
  | f :: fs => f ++ joinAll fs

/-- Final value of the response buffer after the aggregation loop runs
over the given fragments, starting from the empty buffer of cell 5
(`response = ""`). -/
def aggregate (frags : List (List Char)) : List Char :=
  List.foldl stepResp [] frags

/-- Last element of a list of buffer states, with a default for the empty
list (the display placeholder created with `Markdown("")`). -/
def lastD : List (List Char) → List Char → List Char
  | [], d => d
  | x :: xs, _ => lastD xs x

/-- The fixed system persona text of cell 4 (`system_prompt`), verbatim,
including its leading and trailing newlines. -/
def system_prompt : List Char :=
  chars "\nYou are a knowledgeable technical tutor who provides detailed explanations and guidance on topics such as Python programming, \nsoftware engineering, data science, and large language models (LLMs). \nYour responses should be clear, concise, and tailored to the user" ++
    [apos] ++ chars "s level of understanding.\n"

/-- The fixed instruction text that `user_prompt` (cell 4) places before
the question. -/
def userPromptLead : List Char :=
  chars "Could you provide a detailed explanation for the following question: \n"

/-- Embedding of `user_prompt(question)` from cell 4: the fixed
instruction text followed by the verbatim question. -/
def user_prompt (question : List Char) : List Char :=
  userPromptLead ++ question

/-- One chat message: a role paired with a text body. -/
structure ChatMessage where
  role : List Char
  content : List Char
deriving DecidableEq

/-- Embedding of `the_prompts` from cell 4, parameterized by the question
text: the system message followed by the user message. -/
def the_prompts (question : List Char) : List ChatMessage :=
  [⟨chars "system", system_prompt⟩, ⟨chars "user", user_prompt question⟩]

/-- A Python exception value (any `Exception`), carrying its rendered
message as used by the f-string in the except branch. -/
structure PyError where
  msg : List Char
deriving DecidableEq

/-- One streamed chunk of the OpenAI backend; `content` models
`chunk.choices[0].delta.content`, which may be `None`. -/
structure GptChunk where
  content : Option (List Char)

/-- One streamed chunk of the ollama backend; `content` models
`chunk["message"]["content"]`, with `None` possible before the
`or ""` guard. -/
structure OllamaChunk where
  content : Option (List Char)

/-- Fragment text extracted from an OpenAI chunk:
`chunk.choices[0].delta.content or ""`. -/
def gptFragment (c : GptChunk) : List Char := c.content.getD []

/-- Fragment text extracted from an ollama chunk:
`chunk["message"]["content"] or ""`. -/
def llamaFragment (c : OllamaChunk) : List Char := c.content.getD []

/-- The `for chunk in stream` loop body of `gpt_answer` (cell 5): each
iteration appends the extracted fragment, sanitizes the whole buffer and
pushes it via `update_display`; the returned list is the sequence of
pushed buffer states. -/
def gptLoop : List Char → List GptChunk → List (List Char)
  | _, [] => []
  | response, chunk :: rest =>
    stepResp response (gptFragment chunk) ::
      gptLoop (stepResp response (gptFragment chunk)) rest

/-- The `for chunk in stream` loop body of `llama_answer` (cell 6), a
duplicate of the `gpt_answer` loop over ollama chunks. -/
def llamaLoop : List Char → List OllamaChunk → List (List Char)
  | _, [] => []
  | response, chunk :: rest =>
    stepResp response (llamaFragment chunk) ::
      llamaLoop (stepResp response (llamaFragment chunk)) rest

/-- Observable outcome of the try block of a wrapper: whether the display
handle was created, the buffer states pushed to it, and the exception
escaping the block, if any. -/
structure TryResult where
  displayCreated : Bool
  updates : List (List Char)
  raised : Option PyError

/-- The try block of `gpt_answer` (cell 5).  Its input describes the
backend: either opening the stream throws, or the stream yields a chunk
list and then either ends normally or throws.  The display handle is
created only after the stream request returns; a mid-stream error leaves
the updates already pushed. -/
def gptTry (openResult : Except PyError (List GptChunk × Option PyError)) : TryResult :=
  match openResult with
  | Except.error e => ⟨false, [], some e⟩
  | Except.ok (chunks, terminal) => ⟨true, gptLoop [] chunks, terminal⟩

/-- The try block of `llama_answer` (cell 6), a duplicate of the
`gpt_answer` try block over ollama chunks. -/
def llamaTry (openResult : Except PyError (List OllamaChunk × Option PyError)) : TryResult :=
  match openResult with
  | Except.error e => ⟨false, [], some e⟩
  | Except.ok (chunks, terminal) => ⟨true, llamaLoop [] chunks, terminal⟩

/-- The fixed text of the diagnostic printed by the except branch, up to
the interpolated exception: the f-string
`"An error occurred while streaming the answer for your question: "`. -/
def errMsgHead : List Char :=
  chars "An error occurred while streaming the answer for your question: "

/-- The diagnostic text the specification requires the printed message to
contain. -/
def diagTok : List Char :=
  chars "An error occurred while streaming the answer"

/-- Observable outcome of a whole wrapper call: display creation, pushed
buffer states, printed lines, and the exception propagated to the caller,
if any. -/
structure RunResult where
  displayCreated : Bool
  updates : List (List Char)
  printed : List (List Char)
  unhandled : Option PyError

/-- The `except Exception as e` clause shared verbatim by both wrappers:
every exception escaping the try block is caught and converted to one
printed line; nothing is re-raised. -/
def wrapperOf (t : TryResult) : RunResult :=
  match t.raised with
  | some e => ⟨t.displayCreated, t.updates, [errMsgHead ++ e.msg], none⟩
  | none => ⟨t.displayCreated, t.updates, [], none⟩

/-- Embedding of a full `gpt_answer(the_prompts)` call (cell 5). -/
def gpt_answer_run (openResult : Except PyError (List GptChunk × Option PyError)) : RunResult :=
  wrapperOf (gptTry openResult)

/-- Embedding of a full `llama_answer(the_prompts)` call (cell 6). -/
def llama_answer_run (openResult : Except PyError (List OllamaChunk × Option PyError)) : RunResult :=
  wrapperOf (llamaTry openResult)

/-- Modelled from the spec: the `AuthenticationError` the OpenAI client
library raises when the `OPENAI_API_KEY` credential is absent.  The
client library is not part of this repository. -/
def authErr : PyError := ⟨chars "AuthenticationError"⟩

/-- Modelled from the spec: opening the cloud stream
(`openai.chat.completions.create`, cell 5) raises `AuthenticationError`
before any fragment is produced when the credential is absent, and opens
the stream when a credential is present.  This behavior lives in the
OpenAI client library, outside this repository. -/
def cloudOpen (cred : Option (List Char))
    (stream : List GptChunk × Option PyError) :
    Except PyError (List GptChunk × Option PyError) :=
  match cred with
  | none => Except.error authErr
  | some _ => Except.ok stream

/-! ### Basic lemmas about `leadsWith` and `occurs` -/

theorem leadsWith_nil (s : List Char) : leadsWith [] s = true := by
  cases s <;> rfl

theorem leadsWith_cons_cons (p c : Char) (ps cs : List Char) :
    leadsWith (p :: ps) (c :: cs) = ((p == c) && leadsWith ps cs) := rfl

theorem occurs_nil_tok (s : List Char) : occurs ([] : List Char) s = true := by
  induction s with
  | nil => rfl
  | cons c rest ih => simp [occurs, leadsWith_nil, ih]

theorem leadsWith_append (pat s t : List Char) (h : leadsWith pat s = true) :
    leadsWith pat (s ++ t) = true := by
  induction pat generalizing s with
  | nil => exact leadsWith_nil _
  | cons p ps ih =>
    cases s with
    | nil => exact absurd h (by simp [leadsWith])
    | cons c cs =>
      rw [leadsWith_cons_cons] at h
      rcases Bool.and_eq_true_iff.mp h with ⟨h1, h2⟩
      rw [List.cons_append, leadsWith_cons_cons, h1, ih cs h2]
      rfl

theorem leadsWith_self (p t : List Char) : leadsWith p (p ++ t) = true := by
  induction p with
  | nil => exact leadsWith_nil _
  | cons c cs ih => simp [leadsWith_cons_cons, ih]

theorem occurs_head (pat s : List Char) (h : leadsWith pat s = true) :
    occurs pat s = true := by
  cases s with
  | nil =>
    cases pat with
    | nil => rfl
    | cons p ps => exact absurd h (by simp [leadsWith])
  | cons c cs => simp [occurs, h]

theorem occurs_append_l (pat s t : List Char) (h : occurs pat s = true) :
    occurs pat (s ++ t) = true := by
  induction s with
  | nil =>
    have : pat = [] := List.isEmpty_iff.mp h
    subst this
    exact occurs_nil_tok t
  | cons c cs ih =>
    rw [List.cons_append]
    rcases Bool.or_eq_true_iff.mp h with h1 | h2
    · exact occurs_head _ _ (by simpa using leadsWith_append pat (c :: cs) t h1)
    · simp [occurs, ih h2]

theorem occurs_split_l (pat s t : List Char) (h : occurs pat (s ++ t) = false) :
    occurs pat s = false := by
  cases hb : occurs pat s with
  | false => rfl
  | true => rw [occurs_append_l pat s t hb] at h; exact absurd h (by simp)

/-! ### Equations for the two replace passes -/

theorem removeFence_eq3 (a b c : Char) (t : List Char) :
    removeFence (a :: b :: c :: t) =
      if leadsWith fenceTok (a :: b :: c :: t) then removeFence t
      else a :: removeFence (b :: c :: t) := rfl

theorem removeFence_pos (a b c : Char) (t : List Char)
    (h : leadsWith fenceTok (a :: b :: c :: t) = true) :
    removeFence (a :: b :: c :: t) = removeFence t := by
  rw [removeFence_eq3, h]; rfl

theorem removeFence_cons (c : Char) (t : List Char)
    (h : leadsWith fenceTok (c :: t) = false) :
    removeFence (c :: t) = c :: removeFence t := by
  rcases t with _ | ⟨b, _ | ⟨d, t⟩⟩
  · rfl
  · rfl
  · rw [removeFence_eq3, h]; rfl

theorem removeMd_eq8 (c1 c2 c3 c4 c5 c6 c7 c8 : Char) (t : List Char) :
    removeMd (c1 :: c2 :: c3 :: c4 :: c5 :: c6 :: c7 :: c8 :: t) =
      if leadsWith mdTok (c1 :: c2 :: c3 :: c4 :: c5 :: c6 :: c7 :: c8 :: t) then removeMd t
      else c1 :: removeMd (c2 :: c3 :: c4 :: c5 :: c6 :: c7 :: c8 :: t) := rfl

theorem removeMd_cons (c : Char) (t : List Char)
    (h : leadsWith mdTok (c :: t) = false) :
    removeMd (c :: t) = c :: removeMd t := by
  rcases t with _ | ⟨c2, _ | ⟨c3, _ | ⟨c4, _ | ⟨c5, _ | ⟨c6, _ | ⟨c7, _ | ⟨c8, t⟩⟩⟩⟩⟩⟩⟩
  · rfl
  · rfl
  · rfl
  · rfl
  · rfl
  · rfl
  · rfl
  · rw [removeMd_eq8, h]; rfl

/-! ### A pass is the identity when its token does not occur -/

theorem occurs_false_head (pat : List Char) (c : Char) (t : List Char)
    (h : occurs pat (c :: t) = false) : leadsWith pat (c :: t) = false := by
  cases hb : leadsWith pat (c :: t) with
  | false => rfl
  | true => rw [show occurs pat (c :: t) = (leadsWith pat (c :: t) || occurs pat t) from rfl, hb] at h; exact absurd h (by simp)

theorem occurs_false_tail (pat : List Char) (c : Char) (t : List Char)
    (h : occurs pat (c :: t) = false) : occurs pat t = false := by
  cases hb : occurs pat t with
  | false => rfl
  | true => rw [show occurs pat (c :: t) = (leadsWith pat (c :: t) || occurs pat t) from rfl, hb] at h; exact absurd h (by simp)

theorem removeFence_id (s : List Char) (h : occurs fenceTok s = false) :
    removeFence s = s := by
  induction s with
  | nil => rfl
  | cons c t ih =>
    rw [removeFence_cons c t (occurs_false_head _ c t h),
      ih (occurs_false_tail _ c t h)]

theorem removeMd_id (s : List Char) (h : occurs mdTok s = false) :
    removeMd s = s := by
  induction s with
  | nil => rfl
  | cons c t ih =>
    rw [removeMd_cons c t (occurs_false_head _ c t h),
      ih (occurs_false_tail _ c t h)]

theorem sanitize_id (s : List Char) (h1 : occurs fenceTok s = false)
    (h2 : occurs mdTok s = false) : sanitize s = s := by
  unfold sanitize
  rw [removeFence_id s h1, removeMd_id s h2]


/-! ### Shape lemmas for the fence token -/

theorem leads_fence_ne_head (c : Char) (t : List Char) (h : c ≠ btick) :
    leadsWith fenceTok (c :: t) = false := by
  have hc : (btick == c) = false := beq_eq_false_iff_ne.mpr (Ne.symm h)
  simp [fenceTok, leadsWith_cons_cons, hc]

theorem leads_fence_ne_second (c : Char) (t : List Char) (h : c ≠ btick) :
    leadsWith fenceTok (btick :: c :: t) = false := by
  have hc : (btick == c) = false := beq_eq_false_iff_ne.mpr (Ne.symm h)
  simp [fenceTok, leadsWith_cons_cons, hc]

theorem leads_fence_ne_third (c : Char) (t : List Char) (h : c ≠ btick) :
    leadsWith fenceTok (btick :: btick :: c :: t) = false := by
  have hc : (btick == c) = false := beq_eq_false_iff_ne.mpr (Ne.symm h)
  simp [fenceTok, leadsWith_cons_cons, hc]

theorem leads_fence_short1 (a : Char) : leadsWith fenceTok [a] = false := by
  simp [fenceTok, leadsWith]

theorem leads_fence_short2 (a b : Char) : leadsWith fenceTok [a, b] = false := by
  simp [fenceTok, leadsWith]

/-- Claim C3, amended part: the first replace pass leaves no occurrence of
the three-backtick token in its output.  (The composed sanitize step does
not have the analogous property for either token; see the
counterexample.) -/
theorem c3_theorem : ∀ s : List Char, occurs fenceTok (removeFence s) = false := by
  intro s
  induction s using removeFence.induct with
  | case1 a b c rest h ih =>
    rw [removeFence_pos a b c rest h]; exact ih
  | case2 a b c rest h ih =>
    have hfalse : leadsWith fenceTok (a :: b :: c :: rest) = false := by
      cases hx : leadsWith fenceTok (a :: b :: c :: rest) with
      | false => rfl
      | true => exact absurd hx h
    rw [removeFence_cons a (b :: c :: rest) hfalse]
    rw [show occurs fenceTok (a :: removeFence (b :: c :: rest)) =
        (leadsWith fenceTok (a :: removeFence (b :: c :: rest)) ||
          occurs fenceTok (removeFence (b :: c :: rest))) from rfl,
      ih, Bool.or_false]
    by_cases ha : a = btick
    · subst ha
      by_cases hb : b = btick
      · subst hb
        have hc : c ≠ btick := by
          intro hcc
          subst hcc
          exact h (by simp [fenceTok, leadsWith_cons_cons, leadsWith_nil])
        rcases rest with _ | ⟨r, rs⟩
        · rw [show removeFence [btick, c] = [btick, c] from rfl]
          exact leads_fence_ne_third c [] hc
        · rw [removeFence_cons btick (c :: r :: rs) (leads_fence_ne_second c _ hc),
            removeFence_cons c (r :: rs) (leads_fence_ne_head c _ hc)]
          exact leads_fence_ne_third c _ hc
      · rw [removeFence_cons b (c :: rest) (leads_fence_ne_head b _ hb)]
        exact leads_fence_ne_second b _ hb
    · exact leads_fence_ne_head a _ ha
  | case3 a rest hshape ih =>
    rcases rest with _ | ⟨x, _ | ⟨y, r⟩⟩
    · rw [show removeFence [a] = [a] from rfl]
      simp [occurs, leadsWith, fenceTok]
    · rw [show removeFence [a, x] = [a, x] from rfl]
      simp [occurs, leadsWith, fenceTok]
    · exact (hshape x y r rfl).elim
  | case4 => rfl

/-! ### The aggregation fold on occurrence-free input -/

theorem foldl_stepResp_eq (frags : List (List Char)) :
    ∀ acc : List Char,
      occurs fenceTok (acc ++ joinAll frags) = false →
      occurs mdTok (acc ++ joinAll frags) = false →
      List.foldl stepResp acc frags = acc ++ joinAll frags := by
  induction frags with
  | nil =>
    intro acc h1 h2
    simp [joinAll]
  | cons f fs ih =>
    intro acc h1 h2
    have hassoc : acc ++ joinAll (f :: fs) = (acc ++ f) ++ joinAll fs := by
      simp [joinAll, List.append_assoc]
    rw [hassoc] at h1 h2
    have hf1 : occurs fenceTok (acc ++ f) = false := occurs_split_l _ _ _ h1
    have hf2 : occurs mdTok (acc ++ f) = false := occurs_split_l _ _ _ h2
    have hstep : stepResp acc f = acc ++ f := sanitize_id _ hf1 hf2
    calc List.foldl stepResp acc (f :: fs)
        = List.foldl stepResp (stepResp acc f) fs := rfl
      _ = List.foldl stepResp (acc ++ f) fs := by rw [hstep]
      _ = (acc ++ f) ++ joinAll fs := ih (acc ++ f) h1 h2
      _ = acc ++ joinAll (f :: fs) := hassoc.symm

/-- Claim C1, amended: when the concatenation of the fragments contains no
occurrence of the three-backtick token and none of the other removed
token, the final value of the response buffer equals the sanitize step
applied to the concatenation.  (Without that restriction the equality
fails; see the counterexample.) -/
theorem c1_theorem (frags : List (List Char))
    (h1 : occurs fenceTok (joinAll frags) = false)
    (h2 : occurs mdTok (joinAll frags) = false) :
    aggregate frags = sanitize (joinAll frags) := by
  have h1' : occurs fenceTok ([] ++ joinAll frags) = false := by simpa using h1
  have h2' : occurs mdTok ([] ++ joinAll frags) = false := by simpa using h2
  unfold aggregate
  rw [foldl_stepResp_eq frags [] h1' h2', List.nil_append,
    sanitize_id _ h1 h2]

/-- Claim C1, counterexample: for the fragment sequence consisting of a
backtick followed by the word markdown and two backticks, then the empty
fragment, the loop ends with the empty buffer while one sanitize pass
over the concatenation yields three backticks. -/
theorem c1_counterexample :
    ¬ (aggregate [chars "`markdown``", chars ""] =
        sanitize (joinAll [chars "`markdown``", chars ""])) := by
  decide

/-- Claim C1, witness: the amended theorem applied to a concrete clean
fragment sequence. -/
theorem c1_witness :
    occurs fenceTok (joinAll [chars "Hel", chars "lo wor", chars "ld"]) = false ∧
    occurs mdTok (joinAll [chars "Hel", chars "lo wor", chars "ld"]) = false ∧
    aggregate [chars "Hel", chars "lo wor", chars "ld"] =
      sanitize (joinAll [chars "Hel", chars "lo wor", chars "ld"]) :=
  ⟨by decide, by decide, c1_theorem _ (by decide) (by decide)⟩

/-- Claim C2, amended: the sanitize step is idempotent on every string
whose sanitized form contains no occurrence of either removed token; it
is not idempotent in general, because a removal can form a new occurrence
that only the next application strips (see the counterexample). -/
theorem c2_theorem (x : List Char)
    (h1 : occurs fenceTok (sanitize x) = false)
    (h2 : occurs mdTok (sanitize x) = false) :
    sanitize (sanitize x) = sanitize x :=
  sanitize_id _ h1 h2

/-- Claim C2, counterexample: sanitizing the sixteen-character string in
which the word markdown is interleaved with itself yields the word
markdown, and sanitizing once more yields the empty string. -/
theorem c2_counterexample :
    ¬ (sanitize (sanitize (chars "mamarkdownrkdown")) =
        sanitize (chars "mamarkdownrkdown")) := by
  decide

/-- Claim C2, witness: the amended theorem applied to a concrete string. -/
theorem c2_witness :
    occurs fenceTok (sanitize (chars "hello")) = false ∧
    occurs mdTok (sanitize (chars "hello")) = false ∧
    sanitize (sanitize (chars "hello")) = sanitize (chars "hello") :=
  ⟨by decide, by decide, c2_theorem _ (by decide) (by decide)⟩

/-- Claim C3, counterexample: the sanitize step can output text containing
the word markdown, and text containing the three-backtick token, so the
removal is not total on newly formed occurrences. -/
theorem c3_counterexample :
    occurs mdTok (sanitize (chars "mamarkdownrkdown")) = true ∧
    occurs fenceTok (sanitize (chars "`markdown``")) = true := by
  decide

/-! ### Lemmas on the loop update sequences and the wrappers -/

theorem gptLoop_lastD (chunks : List GptChunk) :
    ∀ acc : List Char,
      lastD (gptLoop acc chunks) acc =
        List.foldl stepResp acc (chunks.map gptFragment) := by
  induction chunks with
  | nil => intro acc; rfl
  | cons ch rest ih =>
    intro acc
    rw [show gptLoop acc (ch :: rest) =
        stepResp acc (gptFragment ch) ::
          gptLoop (stepResp acc (gptFragment ch)) rest from rfl,
      show lastD (stepResp acc (gptFragment ch) ::
          gptLoop (stepResp acc (gptFragment ch)) rest) acc =
        lastD (gptLoop (stepResp acc (gptFragment ch)) rest)
          (stepResp acc (gptFragment ch)) from rfl,
      ih (stepResp acc (gptFragment ch))]
    rfl

theorem gptFragment_roundtrip (frags : List (List Char)) :
    (frags.map (fun f => GptChunk.mk (some f))).map gptFragment = frags := by
  induction frags with
  | nil => rfl
  | cons f fs ih => simp [gptFragment, ih]

theorem wrapperOf_unhandled (t : TryResult) : (wrapperOf t).unhandled = none := by
  unfold wrapperOf
  cases t.raised <;> rfl

theorem diag_occurs (m : List Char) : occurs diagTok (errMsgHead ++ m) = true :=
  occurs_head _ _ (leadsWith_append diagTok errMsgHead m (by decide))

/-- Claim C4: for every backend outcome, each wrapper catches every
exception raised while opening or iterating the stream at its outermost
level, prints a diagnostic containing the fixed error text, does not
re-raise, and returns normally to its caller on every path. -/
theorem c4_theorem (o1 : Except PyError (List GptChunk × Option PyError))
    (o2 : Except PyError (List OllamaChunk × Option PyError)) :
    (gpt_answer_run o1).unhandled = none ∧
    (llama_answer_run o2).unhandled = none ∧
    ((gptTry o1).raised.isSome = true →
      ∃ m, m ∈ (gpt_answer_run o1).printed ∧ occurs diagTok m = true) ∧
    ((llamaTry o2).raised.isSome = true →
      ∃ m, m ∈ (llama_answer_run o2).printed ∧ occurs diagTok m = true) := by
  refine ⟨wrapperOf_unhandled _, wrapperOf_unhandled _, ?_, ?_⟩
  · intro hs
    cases hr : (gptTry o1).raised with
    | none => rw [hr] at hs; exact absurd hs (by simp)
    | some e =>
      refine ⟨errMsgHead ++ e.msg, ?_, diag_occurs e.msg⟩
      unfold gpt_answer_run wrapperOf
      rw [hr]
      exact List.mem_singleton.mpr rfl
  · intro hs
    cases hr : (llamaTry o2).raised with
    | none => rw [hr] at hs; exact absurd hs (by simp)
    | some e =>
      refine ⟨errMsgHead ++ e.msg, ?_, diag_occurs e.msg⟩
      unfold llama_answer_run wrapperOf
      rw [hr]
      exact List.mem_singleton.mpr rfl

/-- Claim C4, witness: the theorem applied to a concrete failing open on
both backends, with the error-path hypotheses discharged. -/
theorem c4_witness :
    (gpt_answer_run (Except.error ⟨chars "boom"⟩)).unhandled = none ∧
    (llama_answer_run (Except.error ⟨chars "boom"⟩)).unhandled = none ∧
    (∃ m, m ∈ (gpt_answer_run (Except.error ⟨chars "boom"⟩)).printed ∧
      occurs diagTok m = true) ∧
    (∃ m, m ∈ (llama_answer_run (Except.error ⟨chars "boom"⟩)).printed ∧
      occurs diagTok m = true) := by
  have h := c4_theorem (Except.error ⟨chars "boom"⟩) (Except.error ⟨chars "boom"⟩)
  exact ⟨h.1, h.2.1, h.2.2.1 rfl, h.2.2.2 rfl⟩

/-- Claim C5, amended: if the stream yields the given fragments and then
raises, the last content pushed to the render target equals the loop
aggregate of those fragments (the fold that appends each fragment and
re-sanitizes the whole buffer, which can differ from one sanitize pass
over their concatenation; see the counterexample), a diagnostic
containing the fixed error text is printed, and the call returns
normally. -/
theorem c5_theorem (frags : List (List Char)) (e : PyError) :
    lastD (gpt_answer_run
        (Except.ok (frags.map (fun f => GptChunk.mk (some f)), some e))).updates [] =
      aggregate frags ∧
    (∃ m, m ∈ (gpt_answer_run
        (Except.ok (frags.map (fun f => GptChunk.mk (some f)), some e))).printed ∧
      occurs diagTok m = true) ∧
    (gpt_answer_run
        (Except.ok (frags.map (fun f => GptChunk.mk (some f)), some e))).unhandled =
      none := by
  refine ⟨?_, ⟨errMsgHead ++ e.msg, ?_, diag_occurs e.msg⟩, wrapperOf_unhandled _⟩
  · rw [show (gpt_answer_run
        (Except.ok (frags.map (fun f => GptChunk.mk (some f)), some e))).updates =
        gptLoop [] (frags.map (fun f => GptChunk.mk (some f))) from rfl,
      gptLoop_lastD _ [], gptFragment_roundtrip]
    rfl
  · exact List.mem_singleton.mpr rfl

/-- Claim C5, counterexample: with the two fragments of the C1
counterexample followed by a stream error, the last pushed content is the
empty buffer, while one sanitize pass over the concatenation yields three
backticks. -/
theorem c5_counterexample :
    ¬ (lastD (gpt_answer_run
        (Except.ok ([GptChunk.mk (some (chars "`markdown``")),
          GptChunk.mk (some (chars ""))], some ⟨chars "boom"⟩))).updates [] =
      sanitize (joinAll [chars "`markdown``", chars ""])) := by
  decide

/-- Claim C6: for every question, the built conversation has exactly two
messages; the second one begins with the fixed instruction text and ends
with the verbatim question, and the first one is the fixed system persona
message, independent of the question. -/
theorem c6_theorem (q : List Char) :
    (the_prompts q).length = 2 ∧
    leadsWith userPromptLead ((the_prompts q).getD 1 ⟨[], []⟩).content = true ∧
    (∃ a, ((the_prompts q).getD 1 ⟨[], []⟩).content = a ++ q) ∧
    (the_prompts q).getD 0 ⟨[], []⟩ = ⟨chars "system", system_prompt⟩ := by
  refine ⟨rfl, ?_, ⟨userPromptLead, rfl⟩, rfl⟩
  exact leadsWith_self userPromptLead q

/-- Claim C7: when the backend stream opens and then yields zero
fragments, the render target receives zero updates (in particular, zero
updates or one empty update), no diagnostic is printed, and both wrappers
return normally. -/
theorem c7_theorem :
    ((gpt_answer_run (Except.ok ([], none))).updates = [] ∨
      (gpt_answer_run (Except.ok ([], none))).updates = [[]]) ∧
    (gpt_answer_run (Except.ok ([], none))).printed = [] ∧
    (gpt_answer_run (Except.ok ([], none))).unhandled = none ∧
    ((llama_answer_run (Except.ok ([], none))).updates = [] ∨
      (llama_answer_run (Except.ok ([], none))).updates = [[]]) ∧
    (llama_answer_run (Except.ok ([], none))).printed = [] ∧
    (llama_answer_run (Except.ok ([], none))).unhandled = none :=
  ⟨Or.inl rfl, rfl, rfl, Or.inl rfl, rfl, rfl⟩

/-- Claim C8: feeding the four fragments Hel, lo-plus-two-backticks,
backtick-wor, ld through the aggregation loop ends with the buffer and
the last displayed text both equal to Hello world. -/
theorem c8_theorem :
    aggregate [chars "Hel", chars "lo ``", chars "`wor", chars "ld"] =
      chars "Hello world" ∧
    lastD (gpt_answer_run (Except.ok
        ([chars "Hel", chars "lo ``", chars "`wor", chars "ld"].map
          (fun f => GptChunk.mk (some f)), none))).updates [] =
      chars "Hello world" := by
  decide

/-- Claim C9: with the credential absent, the modelled cloud open raises
the authentication error with no fragment consumed and no render target
initialized; and in general the try block of `gpt_answer` creates the
display handle exactly when the streaming request opens successfully. -/
theorem c9_theorem :
    (∀ s : List GptChunk × Option PyError,
      (gptTry (cloudOpen none s)).raised = some authErr ∧
      (gptTry (cloudOpen none s)).displayCreated = false ∧
      (gptTry (cloudOpen none s)).updates = []) ∧
    (∀ e : PyError, (gptTry (Except.error e)).displayCreated = false) ∧
    (∀ s : List GptChunk × Option PyError,
      (gptTry (Except.ok s)).displayCreated = true) := by
  refine ⟨fun s => ⟨rfl, rfl, rfl⟩, fun e => rfl, fun s => ?_⟩
  obtain ⟨chunks, terminal⟩ := s
  rfl

/-- Claim C10: the aggregation and rendering loops of the two wrappers
are equivalent: over any sequence of optional fragment texts (None read
as the empty text by both extractors) they push the identical sequence of
buffer states and end with the identical final text; they differ only in
the chunk type the fragment is extracted from. -/
theorem c10_theorem (ocs : List (Option (List Char))) :
    gptLoop [] (ocs.map GptChunk.mk) = llamaLoop [] (ocs.map OllamaChunk.mk) ∧
    lastD (gptLoop [] (ocs.map GptChunk.mk)) [] =
      lastD (llamaLoop [] (ocs.map OllamaChunk.mk)) [] := by
  have aux : ∀ (os : List (Option (List Char))) (acc : List Char),
      gptLoop acc (os.map GptChunk.mk) = llamaLoop acc (os.map OllamaChunk.mk) := by
    intro os
    induction os with
    | nil => intro acc; rfl
    | cons o rest ih =>
      intro acc
      rw [show (o :: rest).map GptChunk.mk = GptChunk.mk o :: rest.map GptChunk.mk from rfl,
        show (o :: rest).map OllamaChunk.mk =
          OllamaChunk.mk o :: rest.map OllamaChunk.mk from rfl,
        show gptLoop acc (GptChunk.mk o :: rest.map GptChunk.mk) =
          stepResp acc (gptFragment (GptChunk.mk o)) ::
            gptLoop (stepResp acc (gptFragment (GptChunk.mk o)))
              (rest.map GptChunk.mk) from rfl,
        show llamaLoop acc (OllamaChunk.mk o :: rest.map OllamaChunk.mk) =
          stepResp acc (llamaFragment (OllamaChunk.mk o)) ::
            llamaLoop (stepResp acc (llamaFragment (OllamaChunk.mk o)))
              (rest.map OllamaChunk.mk) from rfl,
        show llamaFragment (OllamaChunk.mk o) = gptFragment (GptChunk.mk o) from rfl,
        ih (stepResp acc (gptFragment (GptChunk.mk o)))]
    
  exact ⟨aux ocs [], by rw [aux ocs []]⟩
